import Mathlib

/-! Verification of the container smoke-test harness scripts
`test-postgres-chainguard.py` and `test-rust-chainguard.py`.

The scripts drive an external container runtime through shell commands.
We embed them as pure functions over an *environment oracle* that gives,
for the i-th external command invocation of a run, the raw captured
process data (stdout, stderr, return code).  Each harness produces the
ordered trace of its observable effects (external commands issued,
sleeps, printed lines) together with its final boolean result.  The Rust
variant additionally threads the state of the mounted working directory
(a set of path names) and an oracle for Python-level file-operation
exceptions, so that the try/except/finally structure of the source is
represented faithfully. -/

/-- Raw outcome of one external process invocation, as captured by
`subprocess.run(cmd, shell=True, capture_output=True, text=True)`:
stdout, stderr and the numeric return code. -/
structure ProcResult where
  stdout : String
  stderr : String
  returncode : Int
  deriving DecidableEq

/-- `subprocess.run` semantics for the `check` flag: return the completed
process data, or raise `CalledProcessError` (carrying the same captured
stdout, stderr and return code) when `check` is set and the return code
is nonzero.  The error payload is the same record type because
`CalledProcessError` exposes exactly these three fields. -/
def subprocess_run (r : ProcResult) (check : Bool) : Except ProcResult ProcResult :=
  if check = true ∧ r.returncode ≠ 0 then .error r else .ok r

/-- `run_command` from both scripts: run the command, catch
`CalledProcessError` locally, and in both cases return the triple of
whitespace-stripped stdout, whitespace-stripped stderr, and return code.
Python's `str.strip` is modelled by `String.trim`. -/
def run_command (r : ProcResult) (check : Bool) : String × String × Int :=
  match subprocess_run r check with
  | .ok res => (res.stdout.trim, res.stderr.trim, res.returncode)
  | .error e => (e.stdout.trim, e.stderr.trim, e.returncode)

/-- One observable effect of a harness run: an external command
invocation, a `time.sleep`, or a printed line. -/
inductive Event where
  | run (cmd : String)
  | sleep (secs : Nat)
  | print (line : String)
  deriving DecidableEq

/-- Environment oracle: the raw process data produced by the i-th
external command invocation of a run. -/
abbrev Env := Nat → ProcResult

/-- The external commands issued in a trace, in order. -/
def runCmds (t : List Event) : List String :=
  t.filterMap (fun e => match e with | .run c => some c | _ => none)

/-- The sleep durations occurring in a trace, in order. -/
def sleepTimes (t : List Event) : List Nat :=
  t.filterMap (fun e => match e with | .sleep s => some s | _ => none)

/-! Command strings of `test-postgres-chainguard.py` (with the container
name `test-postgres-chainguard` interpolated as in the source). -/

def pgImagesCmd : String := "container images list | grep chainguard/postgres"

def pgStopCmd : String := "container stop test-postgres-chainguard"

def pgDeleteCmd : String := "container delete test-postgres-chainguard"

/-- The multi-line `container run` launch command; the backslash-newline
escapes of the Python triple-quoted string leave the 8-space indents of
the continuation lines inside the string. -/
def pgStartCmd : String :=
  "container run --name test-postgres-chainguard --detach         --env POSTGRES_PASSWORD=testpassword         --env POSTGRES_USER=testuser         --env POSTGRES_DB=testdb         chainguard/postgres:latest"

def pgProbeCmd : String :=
  "container exec test-postgres-chainguard pg_isready -U testuser -d testdb"

def pgVersionQueryCmd : String :=
  "container exec test-postgres-chainguard psql -U testuser -d testdb -c \"SELECT version();\" "

def pgCreateTableCmd : String :=
  "container exec test-postgres-chainguard psql -U testuser -d testdb -c \"CREATE TABLE test_table (id SERIAL PRIMARY KEY, name VARCHAR(50), created_at TIMESTAMP DEFAULT CURRENT_TIMESTAMP);\" "

def pgInsertCmd : String :=
  "container exec test-postgres-chainguard psql -U testuser -d testdb -c \"INSERT INTO test_table (name) VALUES (\x27test_record\x27);\" "

def pgSelectCmd : String :=
  "container exec test-postgres-chainguard psql -U testuser -d testdb -c \"SELECT * FROM test_table;\" "

def pgInspectCmd : String := "container inspect test-postgres-chainguard"

/-- Shape of one network object of the `container inspect` JSON, reduced
to the single field the script reads (`address`); a missing key is
`none`. -/
structure PgNetwork where
  address : Option String
  deriving DecidableEq

/-- Shape of the `configuration` object of the inspect JSON, reduced to
the two fields the script reads. -/
structure PgConfiguration where
  id : Option String
  architecture : Option String
  deriving DecidableEq

/-- Shape of one element of the JSON array returned by
`container inspect`, reduced to the fields the script accesses via
`dict.get` (a missing key is `none`). -/
structure PgInspectItem where
  configuration : Option PgConfiguration
  status : Option String
  networks : Option (List PgNetwork)
  deriving DecidableEq

/-- Model of `json.loads` on the inspect output, restricted to the JSON
shape the script reads: `.error` is a `json.JSONDecodeError`, `.ok` is
the decoded array. -/
abbrev PgParse := String → Except Unit (List PgInspectItem)

/-- The try-block of step 6 of `test_postgres_chainguard` (lines
115-125): on a decode error print the fallback line; on a decoded,
non-empty array print the container id, status, architecture, and - when
a non-empty `networks` entry exists - the first address, with `dict.get`
defaults of "N/A". -/
def pgInspectPrints : Except Unit (List PgInspectItem) → List Event
  | .error _ => [.print "Could not parse container information"]
  | .ok [] => []
  | .ok (info :: _) =>
      [.print ("Container ID: " ++ ((info.configuration.bind PgConfiguration.id).getD "N/A")),
       .print ("Status: " ++ (info.status.getD "N/A")),
       .print ("Architecture: " ++ ((info.configuration.bind PgConfiguration.architecture).getD "N/A"))] ++
      (match info.networks with
       | some (n :: _) => [.print ("IP Address: " ++ (n.address.getD "N/A"))]
       | _ => [])

/-- The readiness-polling loop of step 3 (lines 54-65 of the source):
`for attempt in range(30)` probing with `pg_isready`, breaking on return
code 0, otherwise printing the waiting line and sleeping 2 seconds; the
for-else branch prints the timeout line and the caller returns failure.
`idx` is the invocation index of the next probe and `fuel` the number of
attempts left, so the printed attempt number is `30 - fuel`. -/
def pgPoll (env : Env) : Nat → Nat → List Event × Nat × Bool
  | idx, 0 => ([.print "❌ PostgreSQL failed to start within expected time"], idx, false)
  | idx, fuel + 1 =>
    let r := run_command (env idx) true
    if r.2.2 = 0 then
      ([.run pgProbeCmd, .print "✅ PostgreSQL is ready!"], idx + 1, true)
    else
      let rest := pgPoll env (idx + 1) fuel
      (.run pgProbeCmd ::
        .print ("⏳ Waiting for PostgreSQL... (attempt " ++ toString (30 - fuel) ++ "/30)") ::
        .sleep 2 :: rest.1, rest.2)

/-- Step 7 of `test_postgres_chainguard` (lines 127-142): final stop and
delete, each reported but never failing the run, then the completion
banner; `i` is the invocation index of the stop command and `t` the
trace accumulated so far. -/
def pgCleanup (env : Env) (i : Nat) (t : List Event) : List Event × Bool :=
  let t1 := t ++ [.print "\n7. Cleaning up...", .run pgStopCmd]
  let r1 := run_command (env i) true
  let t2 := t1 ++ (if r1.2.2 = 0 then [.print "✅ Container stopped"]
    else [.print ("❌ Failed to stop container: " ++ r1.2.1)])
  let t3 := t2 ++ [.run pgDeleteCmd]
  let r2 := run_command (env (i + 1)) true
  let t4 := t3 ++ (if r2.2.2 = 0 then [.print "✅ Container deleted"]
    else [.print ("❌ Failed to delete container: " ++ r2.2.1)])
  (t4 ++ [.print "\n=== Test completed successfully! ==="], true)

/-- Step 6 of `test_postgres_chainguard` (lines 111-125): inspect the
container; on return code 0 run the JSON try-block, a nonzero code is
silently ignored; then step 7 follows unconditionally. -/
def pgInspectStep (env : Env) (parse : PgParse) (i : Nat) (t : List Event) : List Event × Bool :=
  let t1 := t ++ [.print "\n6. Container information:", .run pgInspectCmd]
  let r := run_command (env i) true
  let t2 := t1 ++ (if r.2.2 = 0 then pgInspectPrints (parse r.1) else [])
  pgCleanup env (i + 1) t2

/-- The select query of step 5 (lines 101-109): on failure the harness
returns False at once, otherwise steps 6-7 follow. -/
def pgSelectStep (env : Env) (parse : PgParse) (i : Nat) (t : List Event) : List Event × Bool :=
  let t1 := t ++ [.run pgSelectCmd]
  let r := run_command (env i) true
  if r.2.2 = 0 then
    pgInspectStep env parse (i + 1)
      (t1 ++ [.print "✅ Query test successful!", .print ("Query result:\n" ++ r.1)])
  else
    (t1 ++ [.print ("❌ Query test failed: " ++ r.2.1)], false)

/-- The insert of step 5 (lines 92-99). -/
def pgInsertStep (env : Env) (parse : PgParse) (i : Nat) (t : List Event) : List Event × Bool :=
  let t1 := t ++ [.run pgInsertCmd]
  let r := run_command (env i) true
  if r.2.2 = 0 then
    pgSelectStep env parse (i + 1) (t1 ++ [.print "✅ Inserted test data"])
  else
    (t1 ++ [.print ("❌ Failed to insert data: " ++ r.2.1)], false)

/-- The create-table of step 5 (lines 83-90). -/
def pgCreateStep (env : Env) (parse : PgParse) (i : Nat) (t : List Event) : List Event × Bool :=
  let t1 := t ++ [.print "\n5. Testing basic database operations...", .run pgCreateTableCmd]
  let r := run_command (env i) true
  if r.2.2 = 0 then
    pgInsertStep env parse (i + 1) (t1 ++ [.print "✅ Created test table"])
  else
    (t1 ++ [.print ("❌ Failed to create table: " ++ r.2.1)], false)

/-- Step 4 (lines 67-78): database connectivity check. -/
def pgConnStep (env : Env) (parse : PgParse) (i : Nat) (t : List Event) : List Event × Bool :=
  let t1 := t ++ [.print "\n4. Testing database connectivity...", .run pgVersionQueryCmd]
  let r := run_command (env i) true
  if r.2.2 = 0 then
    pgCreateStep env parse (i + 1)
      (t1 ++ [.print "✅ Database connectivity test successful!",
        .print ("PostgreSQL version: " ++ r.1.trim)])
  else
    (t1 ++ [.print ("❌ Database connectivity test failed: " ++ r.2.1)], false)

/-- `test_postgres_chainguard` from `test-postgres-chainguard.py`: the
ordered sequence of steps 1-7 with the source's early returns.  External
command invocations are numbered in order: 0 image check, 1-2 pre-start
stop/delete (with check=False), 3 launch, 4.. readiness probes, then
connectivity, create, insert, select, inspect, and the final
stop/delete.  Returns the trace of effects and the boolean result. -/
def test_postgres_chainguard (env : Env) (parse : PgParse) : List Event × Bool :=
  let t1 : List Event := [.print "=== Testing Chainguard PostgreSQL Image ===",
    .print "\n1. Checking for existing Chainguard PostgreSQL image...",
    .run pgImagesCmd]
  let r1 := run_command (env 0) true
  if r1.2.2 = 0 then
    let t2 := t1 ++ [.print "✅ Found existing Chainguard PostgreSQL image",
      .print "\n2. Starting PostgreSQL container...",
      .run pgStopCmd, .run pgDeleteCmd]
    let _pre1 := run_command (env 1) false
    let _pre2 := run_command (env 2) false
    let r2 := run_command (env 3) true
    let t3 := t2 ++ [.run pgStartCmd]
    if r2.2.2 = 0 then
      let t4 := t3 ++ [.print "✅ Successfully started PostgreSQL container",
        .print ("Container ID: " ++ r2.1),
        .print "\n3. Waiting for PostgreSQL to be ready..."]
      let poll := pgPoll env 4 30
      let t5 := t4 ++ poll.1
      if poll.2.2 then
        pgConnStep env parse poll.2.1 t5
      else
        (t5, false)
    else
      (t3 ++ [.print ("❌ Failed to start container: " ++ r2.2.1)], false)
  else
    (t1 ++ [.print "❌ Chainguard PostgreSQL image not found"], false)

/-- The `__main__` block of `test-postgres-chainguard.py`:
`sys.exit(0 if success else 1)`. -/
def pg_main (env : Env) (parse : PgParse) : Nat :=
  if (test_postgres_chainguard env parse).2 then 0 else 1

/-! Model of `test-rust-chainguard.py`.  Besides the external commands it
stages files in the mounted working directory, so the embedding threads
the set of paths present there (`FS`), an oracle for files created in
the working directory by each external command (the container writes
through the volume mount), and an oracle for Python-level file-operation
exceptions, which the source catches with its try/except/finally. -/

/-- The mounted working directory, as the set of path names present. -/
abbrev FS := List String

/-- Add a path to the working directory (idempotent). -/
def fsAdd (fs : FS) (p : String) : FS := if p ∈ fs then fs else fs ++ [p]

/-- Remove a path from the working directory (`os.remove`). -/
def fsRemove (fs : FS) (p : String) : FS := fs.filter (fun q => q != p)

/-- Whether a path belongs to the `src` directory tree: the directory
entry itself or any child path.  `os.path.exists("src")` holds exactly
when such an entry is present. -/
def srcEntry (p : String) : Bool := p == "src" || p.startsWith "src/"

/-- The staged files `cleanup_files` removes one by one. -/
def filesToRemove : List String :=
  ["hello_world.rs", "Cargo.toml", "hello_world", "hello_optimized"]

/-- `cleanup_files` from `test-rust-chainguard.py` (lines 17-24): remove
each staged file if it exists, then `shutil.rmtree("src")` if the src
directory exists, deleting the whole tree. -/
def cleanup_files (fs : FS) : FS :=
  let fs1 := filesToRemove.foldl (fun a f => if f ∈ a then fsRemove a f else a) fs
  if fs1.any srcEntry then fs1.filter (fun p => !(srcEntry p)) else fs1

/-! Command strings of `test-rust-chainguard.py`; the compile and run
commands interpolate the working directory `cwd = os.getcwd()`. -/

def rustImagesCmd : String := "container images list | grep chainguard/rust"

def rustVersionCmd : String :=
  "container run --name test-rust-chainguard --rm --entrypoint sh chainguard/rust:latest -c \"rustc --version\""

def rustCompileCmd (cwd : String) : String :=
  "container run --name test-rust-chainguard --rm --volume \"" ++ cwd ++
    ":/workspace\" --workdir /workspace --entrypoint sh chainguard/rust:latest -c \"rustc hello_world.rs -o hello_world\""

def rustRunBinCmd (cwd : String) : String :=
  "container run --name test-rust-chainguard --rm --volume \"" ++ cwd ++
    ":/workspace\" --workdir /workspace --entrypoint sh chainguard/rust:latest -c \"./hello_world\""

def rustCargoCmd : String :=
  "container run --name test-rust-chainguard --rm --entrypoint sh chainguard/rust:latest -c \"cargo --version\""

def rustOptCompileCmd (cwd : String) : String :=
  "container run --name test-rust-chainguard --rm --volume \"" ++ cwd ++
    ":/workspace\" --workdir /workspace --entrypoint sh chainguard/rust:latest -c \"rustc src/main.rs -O -o hello_optimized\""

def rustOptRunCmd (cwd : String) : String :=
  "container run --name test-rust-chainguard --rm --volume \"" ++ cwd ++
    ":/workspace\" --workdir /workspace --entrypoint sh chainguard/rust:latest -c \"./hello_optimized\""

def rustUnameCmd : String :=
  "container run --name test-rust-chainguard --rm --entrypoint sh chainguard/rust:latest -c \"uname -a\""

def rustDetailsCmd : String :=
  "container run --name test-rust-chainguard --rm --entrypoint sh chainguard/rust:latest -c \"rustc --version && echo \x27Targets:\x27 && rustc --print target-list | head -5\""

/-- Oracle for files created in the mounted working directory by the
i-th external command of a run (empty for commands that touch no file
there). -/
abbrev MkFiles := Nat → List String

/-- Oracle for the Python-level file operations of the script, in the
order they occur (0: write hello_world.rs, 1: makedirs src, 2:
shutil.move, 3: write Cargo.toml): `none` means the call succeeds,
`some msg` that it raises an exception rendering as `msg`. -/
abbrev FsOracle := Nat → Option String

/-- Apply the working-directory creations of one external command. -/
def applyCreates (fs : FS) (ps : List String) : FS := ps.foldl fsAdd fs

/-- An exception escaping a step of the try-block: the `except
Exception` handler (lines 190-192) prints the message and makes the
harness return False. -/
def rustExceptExit (t : List Event) (fs : FS) (msg : String) : List Event × FS × Bool :=
  (t ++ [.print ("❌ Test failed with exception: " ++ msg)], fs, false)

/-- Steps 8 and 9 of `test_rust_chainguard` (lines 173-188): uname and
toolchain details, both reported only when they succeed, neither
affecting the result; then the completion banner and True.  `i` is the
invocation index of the uname command. -/
def rustTail (env : Env) (mk : MkFiles) (i : Nat) (t : List Event) (fs : FS) :
    List Event × FS × Bool :=
  let t1 := t ++ [.print "\n8. Container information:", .run rustUnameCmd]
  let fs1 := applyCreates fs (mk i)
  let r1 := run_command (env i) true
  let t2 := t1 ++ (if r1.2.2 = 0 then [.print ("System info: " ++ r1.1)] else [])
  let t3 := t2 ++ [.print "\n9. Checking Rust installation details...", .run rustDetailsCmd]
  let fs2 := applyCreates fs1 (mk (i + 1))
  let r2 := run_command (env (i + 1)) true
  let t4 := t3 ++ (if r2.2.2 = 0 then [.print ("Rust details:\n" ++ r2.1)] else [])
  (t4 ++ [.print "\n=== Test completed successfully! ==="], fs2, true)

/-- Step 7 of `test_rust_chainguard` (lines 142-171): stage the Cargo
project (makedirs src, move the source file, write Cargo.toml - file
operations 1-3), then the optimized compile (invocation 5); on success
run the optimized binary (invocation 6) and report; on failure only
report - the run continues with steps 8-9 either way. -/
def rustOptStep (env : Env) (mk : MkFiles) (fso : FsOracle) (cwd : String)
    (t : List Event) (fs : FS) : List Event × FS × Bool :=
  let t1 := t ++ [.print "\n7. Testing Rust compiler features..."]
  match fso 1 with
  | some msg => rustExceptExit t1 fs msg
  | none =>
    let fs1 := fsAdd fs "src"
    match fso 2 with
    | some msg => rustExceptExit t1 fs1 msg
    | none =>
      let fs2 := fsAdd (fsRemove fs1 "hello_world.rs") "src/main.rs"
      match fso 3 with
      | some msg => rustExceptExit t1 fs2 msg
      | none =>
        let fs3 := fsAdd fs2 "Cargo.toml"
        let t2 := t1 ++ [.run (rustOptCompileCmd cwd)]
        let fs4 := applyCreates fs3 (mk 5)
        let r1 := run_command (env 5) true
        if r1.2.2 = 0 then
          let t3 := t2 ++ [.print "✅ Optimized compilation successful", .run (rustOptRunCmd cwd)]
          let fs5 := applyCreates fs4 (mk 6)
          let r2 := run_command (env 6) true
          let t4 := t3 ++ (if r2.2.2 = 0 then
            [.print "✅ Optimized program execution successful",
             .print ("Optimized output:\n" ++ r2.1)] else [])
          rustTail env mk 7 t4 fs5
        else
          rustTail env mk 6 (t2 ++ [.print ("❌ Optimized compilation failed: " ++ r1.2.1)]) fs4

/-- The try-block body of `test_rust_chainguard` (lines 30-192): steps
1-9 with the source's early returns on failures of steps 1 and 3-5, the
warning-only cargo check of step 6, and the `except Exception` handler
for file-operation exceptions. -/
def rustBody (env : Env) (mk : MkFiles) (fso : FsOracle) (cwd : String) (fs0 : FS) :
    List Event × FS × Bool :=
  let t1 : List Event := [.print "=== Testing Chainguard Rust Image ===",
    .print "\n1. Verifying Chainguard Rust image...", .run rustImagesCmd]
  let fs1 := applyCreates fs0 (mk 0)
  let r1 := run_command (env 0) true
  if r1.2.2 = 0 then
    let t2 := t1 ++ [.print "✅ Found Chainguard Rust image",
      .print "\n2. Creating simple Rust test program..."]
    match fso 0 with
    | some msg => rustExceptExit t2 fs1 msg
    | none =>
      let fs2 := fsAdd fs1 "hello_world.rs"
      let t3 := t2 ++ [.print "✅ Created Rust test program",
        .print "\n3. Testing Rust version in container...", .run rustVersionCmd]
      let fs3 := applyCreates fs2 (mk 1)
      let r2 := run_command (env 1) true
      if r2.2.2 = 0 then
        let t4 := t3 ++ [.print "✅ Rust version check successful",
          .print ("Rust version: " ++ r2.1),
          .print "\n4. Compiling Rust program...", .run (rustCompileCmd cwd)]
        let fs4 := applyCreates fs3 (mk 2)
        let r3 := run_command (env 2) true
        if r3.2.2 = 0 then
          let t5 := t4 ++ [.print "✅ Rust compilation successful",
            .print "\n5. Running compiled Rust program...", .run (rustRunBinCmd cwd)]
          let fs5 := applyCreates fs4 (mk 3)
          let r4 := run_command (env 3) true
          if r4.2.2 = 0 then
            let t6 := t5 ++ [.print "✅ Rust program execution successful",
              .print ("Program output:\n" ++ r4.1),
              .print "\n6. Testing Cargo (Rust package manager)...", .run rustCargoCmd]
            let fs6 := applyCreates fs5 (mk 4)
            let r5 := run_command (env 4) true
            let t7 := t6 ++ (if r5.2.2 = 0 then
              [.print "✅ Cargo version check successful", .print ("Cargo version: " ++ r5.1)]
              else [.print "⚠️  Cargo not available (expected for minimal Rust image)"])
            rustOptStep env mk fso cwd t7 fs6
          else
            (t5 ++ [.print ("❌ Failed to run Rust program: " ++ r4.2.1)], fs5, false)
        else
          (t4 ++ [.print ("❌ Rust compilation failed: " ++ r3.2.1)], fs4, false)
      else
        (t3 ++ [.print ("❌ Failed to get Rust version: " ++ r2.2.1)], fs3, false)
  else
    (t1 ++ [.print "❌ Chainguard Rust image not found"], fs1, false)

/-- `test_rust_chainguard` from `test-rust-chainguard.py`: the try-block
body followed by the `finally` clause, which prints the cleanup banner
and runs `cleanup_files` on every exit path - success, early return, or
caught exception - before the body's result is returned. -/
def test_rust_chainguard (env : Env) (mk : MkFiles) (fso : FsOracle) (cwd : String)
    (fs0 : FS) : List Event × FS × Bool :=
  let body := rustBody env mk fso cwd fs0
  (body.1 ++ [.print "\n🧹 Cleaning up test files..."], cleanup_files body.2.1, body.2.2)

/-- The `__main__` block of `test-rust-chainguard.py`:
`sys.exit(0 if success else 1)`. -/
def rust_main (env : Env) (mk : MkFiles) (fso : FsOracle) (cwd : String) (fs0 : FS) : Nat :=
  if (test_rust_chainguard env mk fso cwd fs0).2.2 then 0 else 1

/-- A path the working directory must be free of after a run of the
Rust harness: one of the staged or produced files, or anything in the
src tree. -/
def offendingPath (p : String) : Bool := filesToRemove.contains p || srcEntry p

/-- The working directory is free of every staged file, produced binary
and the src directory tree. -/
def fsClean (fs : FS) : Bool := fs.all (fun p => !(offendingPath p))

/-! Concrete environments used as witnesses and counterexamples. -/

/-- A process outcome with return code 0. -/
def okProc : ProcResult := ⟨"out", "err", 0⟩

/-- A process outcome with return code 1. -/
def failProc : ProcResult := ⟨"", "boom", 1⟩

/-- Every invocation succeeds. -/
def envAllOk : Env := fun _ => okProc

/-- Exactly invocation `k` fails. -/
def envFailAt (k : Nat) : Env := fun i => if i = k then failProc else okProc

/-- Invocations from `k` on fail, the earlier ones succeed. -/
def envFailFrom (k : Nat) : Env := fun i => if k ≤ i then failProc else okProc

/-- A `json.loads` model that always raises a decode error. -/
def parseFailAlways : PgParse := fun _ => .error ()

/-- No external command creates files in the working directory. -/
def mkNone : MkFiles := fun _ => []

/-- No Python-level file operation raises. -/
def fsoNone : FsOracle := fun _ => none

/-! Basic lemmas about the embedding. -/

theorem run_command_eq (r : ProcResult) (c : Bool) :
    run_command r c = (r.stdout.trim, r.stderr.trim, r.returncode) := by
  unfold run_command subprocess_run
  by_cases h : c = true ∧ r.returncode ≠ 0 <;> simp [h]

@[simp] theorem runCmds_nil : runCmds [] = [] := rfl

@[simp] theorem runCmds_append (a b : List Event) :
    runCmds (a ++ b) = runCmds a ++ runCmds b := by
  simp [runCmds]

@[simp] theorem runCmds_cons_run (c : String) (t : List Event) :
    runCmds (.run c :: t) = c :: runCmds t := by
  simp [runCmds]

@[simp] theorem runCmds_cons_print (s : String) (t : List Event) :
    runCmds (.print s :: t) = runCmds t := by
  simp [runCmds]

@[simp] theorem runCmds_cons_sleep (n : Nat) (t : List Event) :
    runCmds (.sleep n :: t) = runCmds t := by
  simp [runCmds]

@[simp] theorem sleepTimes_nil : sleepTimes [] = [] := rfl

@[simp] theorem sleepTimes_append (a b : List Event) :
    sleepTimes (a ++ b) = sleepTimes a ++ sleepTimes b := by
  simp [sleepTimes]

@[simp] theorem sleepTimes_cons_run (c : String) (t : List Event) :
    sleepTimes (.run c :: t) = sleepTimes t := by
  simp [sleepTimes]

@[simp] theorem sleepTimes_cons_print (s : String) (t : List Event) :
    sleepTimes (.print s :: t) = sleepTimes t := by
  simp [sleepTimes]

@[simp] theorem sleepTimes_cons_sleep (n : Nat) (t : List Event) :
    sleepTimes (.sleep n :: t) = n :: sleepTimes t := by
  simp [sleepTimes]

@[simp] theorem runCmds_pgInspectPrints (x : Except Unit (List PgInspectItem)) :
    runCmds (pgInspectPrints x) = [] := by
  rcases x with e | l
  · simp [pgInspectPrints]
  · cases l with
    | nil => simp [pgInspectPrints]
    | cons a l =>
      rcases ha : a.networks with _ | ns
      · simp [pgInspectPrints, ha]
      · cases ns <;> simp [pgInspectPrints, ha]

@[simp] theorem sleepTimes_pgInspectPrints (x : Except Unit (List PgInspectItem)) :
    sleepTimes (pgInspectPrints x) = [] := by
  rcases x with e | l
  · simp [pgInspectPrints]
  · cases l with
    | nil => simp [pgInspectPrints]
    | cons a l =>
      rcases ha : a.networks with _ | ns
      · simp [pgInspectPrints, ha]
      · cases ns <;> simp [pgInspectPrints, ha]

/-- Readiness loop, exhausted budget: with every probe in the attempt
window failing, the loop issues exactly `fuel` probes, sleeps 2 after
each failed probe, reports the timeout, and returns failure with the
invocation index advanced by `fuel`. -/
theorem pgPoll_fail (env : Env) :
    ∀ fuel idx, (∀ i, i < fuel → (env (idx + i)).returncode ≠ 0) →
      runCmds (pgPoll env idx fuel).1 = List.replicate fuel pgProbeCmd ∧
      sleepTimes (pgPoll env idx fuel).1 = List.replicate fuel 2 ∧
      Event.print "❌ PostgreSQL failed to start within expected time" ∈ (pgPoll env idx fuel).1 ∧
      (pgPoll env idx fuel).2 = (idx + fuel, false) := by
  intro fuel
  induction fuel with
  | zero => intro idx _; simp [pgPoll]
  | succ n ih =>
    intro idx h
    have h0 : (env idx).returncode ≠ 0 := by
      have := h 0 (Nat.succ_pos n); simpa using this
    have hrest := ih (idx + 1) (fun i hi => by
      have hx := h (i + 1) (by omega)
      have e : idx + (i + 1) = idx + 1 + i := by omega
      rw [e] at hx; exact hx)
    obtain ⟨hr, hs, hm, hp⟩ := hrest
    refine ⟨?_, ?_, ?_, ?_⟩
    · simp [pgPoll, run_command_eq, h0, hr, List.replicate_succ]
    · simp [pgPoll, run_command_eq, h0, hs, List.replicate_succ]
    · simp only [pgPoll, run_command_eq, h0]
      simp [hm]
    · have e : idx + 1 + n = idx + (n + 1) := by omega
      simp [pgPoll, run_command_eq, h0, hp, e]

/-- Readiness loop, first success at relative offset `j` within the
attempt window: the loop issues exactly `j + 1` probes, sleeps 2 after
each of the `j` failed probes, and returns success with the invocation
index advanced by `j + 1`. -/
theorem pgPoll_succ (env : Env) :
    ∀ j fuel idx, j < fuel → (∀ i, i < j → (env (idx + i)).returncode ≠ 0) →
      (env (idx + j)).returncode = 0 →
      runCmds (pgPoll env idx fuel).1 = List.replicate (j + 1) pgProbeCmd ∧
      sleepTimes (pgPoll env idx fuel).1 = List.replicate j 2 ∧
      (pgPoll env idx fuel).2 = (idx + j + 1, true) := by
  intro j
  induction j with
  | zero =>
    intro fuel idx hj _ h0
    cases fuel with
    | zero => omega
    | succ m =>
      have h0' : (env idx).returncode = 0 := by simpa using h0
      simp [pgPoll, run_command_eq, h0']
  | succ n ih =>
    intro fuel idx hj hf h0
    cases fuel with
    | zero => omega
    | succ m =>
      have hx : (env idx).returncode ≠ 0 := by
        have := hf 0 (Nat.succ_pos n); simpa using this
      have h0' : (env (idx + 1 + n)).returncode = 0 := by
        have e : idx + 1 + n = idx + (n + 1) := by omega
        rw [e]; exact h0
      have hrest := ih m (idx + 1) (by omega) (fun i hi => by
        have hy := hf (i + 1) (by omega)
        have e : idx + (i + 1) = idx + 1 + i := by omega
        rw [e] at hy; exact hy) h0'
      obtain ⟨hr, hs, hp⟩ := hrest
      refine ⟨?_, ?_, ?_⟩
      · simp [pgPoll, run_command_eq, hx, hr, List.replicate_succ]
      · simp [pgPoll, run_command_eq, hx, hs, List.replicate_succ]
      · have e : idx + 1 + n + 1 = idx + (n + 1) + 1 := by omega
        simp [pgPoll, run_command_eq, hx, hp, e]

/-- The readiness loop always issues at least one and at most `fuel`
probes (for a positive budget). -/
theorem pgPoll_probe_bounds (env : Env) :
    ∀ fuel idx, (runCmds (pgPoll env idx fuel).1).length ≤ fuel ∧
      (0 < fuel → 0 < (runCmds (pgPoll env idx fuel).1).length) := by
  intro fuel
  induction fuel with
  | zero => intro idx; simp [pgPoll]
  | succ n ih =>
    intro idx
    by_cases hc : (env idx).returncode = 0
    · simp [pgPoll, run_command_eq, hc]
    · have := (ih (idx + 1)).1
      constructor
      · simp only [pgPoll, run_command_eq]
        simp only [if_neg hc]
        simp only [runCmds_cons_run, runCmds_cons_print, runCmds_cons_sleep]
        simpa using this
      · intro _
        simp only [pgPoll, run_command_eq]
        simp only [if_neg hc]
        simp

/-- Success-path characterization of the postgres harness: when the
image check and launch succeed, the readiness probe first succeeds at
attempt `k + 1`, and connectivity, create, insert and select all
succeed, the run returns True; the commands issued are exactly the image
check, pre-start stop/delete, launch, `k + 1` probes, the four psql
steps, the inspect, and the final stop/delete; the only sleeps are the
`k` 2-second waits; the inspect try-block output is in the trace when
the inspect command succeeds; and failures of the final stop or delete
are reported in the trace (while the result stays True). -/
theorem pg_success (env : Env) (parse : PgParse) (k : Nat) (hk : k < 30)
    (h0 : (env 0).returncode = 0) (h3 : (env 3).returncode = 0)
    (hf : ∀ i, i < k → (env (4 + i)).returncode ≠ 0)
    (hs : (env (4 + k)).returncode = 0)
    (hc : (env (5 + k)).returncode = 0)
    (hcr : (env (6 + k)).returncode = 0)
    (hins : (env (7 + k)).returncode = 0)
    (hsel : (env (8 + k)).returncode = 0) :
    (test_postgres_chainguard env parse).2 = true ∧
    runCmds (test_postgres_chainguard env parse).1 =
      [pgImagesCmd, pgStopCmd, pgDeleteCmd, pgStartCmd] ++
        List.replicate (k + 1) pgProbeCmd ++
        [pgVersionQueryCmd, pgCreateTableCmd, pgInsertCmd, pgSelectCmd, pgInspectCmd,
          pgStopCmd, pgDeleteCmd] ∧
    sleepTimes (test_postgres_chainguard env parse).1 = List.replicate k 2 ∧
    ((env (9 + k)).returncode = 0 →
      ∀ ev ∈ pgInspectPrints (parse (env (9 + k)).stdout.trim),
        ev ∈ (test_postgres_chainguard env parse).1) ∧
    ((env (10 + k)).returncode ≠ 0 →
      Event.print ("❌ Failed to stop container: " ++ (env (10 + k)).stderr.trim) ∈
        (test_postgres_chainguard env parse).1) ∧
    ((env (11 + k)).returncode ≠ 0 →
      Event.print ("❌ Failed to delete container: " ++ (env (11 + k)).stderr.trim) ∈
        (test_postgres_chainguard env parse).1) := by
  obtain ⟨hr, hsl, hp⟩ := pgPoll_succ env k 30 4 hk hf hs
  have hb2 : (pgPoll env 4 30).2.2 = true := by rw [hp]
  have hb1 : (pgPoll env 4 30).2.1 = 5 + k := by rw [hp]; omega
  have e6 : 5 + k + 1 = 6 + k := by omega
  have e7 : 6 + k + 1 = 7 + k := by omega
  have e8 : 7 + k + 1 = 8 + k := by omega
  have e9 : 8 + k + 1 = 9 + k := by omega
  have e10 : 9 + k + 1 = 10 + k := by omega
  have e11 : 10 + k + 1 = 11 + k := by omega
  refine ⟨?_, ?_, ?_, ?_, ?_, ?_⟩
  · simp [test_postgres_chainguard, pgConnStep, pgCreateStep, pgInsertStep, pgSelectStep,
      pgInspectStep, pgCleanup, run_command_eq, hb1, hb2, e6, e7, e8, e9, e10, e11,
      h0, h3, hc, hcr, hins, hsel]
  · simp [test_postgres_chainguard, pgConnStep, pgCreateStep, pgInsertStep, pgSelectStep,
      pgInspectStep, pgCleanup, run_command_eq, hb1, hb2, e6, e7, e8, e9, e10, e11,
      h0, h3, hc, hcr, hins, hsel, hr, apply_ite runCmds]
  · simp [test_postgres_chainguard, pgConnStep, pgCreateStep, pgInsertStep, pgSelectStep,
      pgInspectStep, pgCleanup, run_command_eq, hb1, hb2, e6, e7, e8, e9, e10, e11,
      h0, h3, hc, hcr, hins, hsel, hsl, apply_ite sleepTimes]
  · intro h9 ev hev
    simp [test_postgres_chainguard, pgConnStep, pgCreateStep, pgInsertStep, pgSelectStep,
      pgInspectStep, pgCleanup, run_command_eq, hb1, hb2, e6, e7, e8, e9, e10, e11,
      h0, h3, hc, hcr, hins, hsel, h9, List.mem_append]
    tauto
  · intro h10
    simp [test_postgres_chainguard, pgConnStep, pgCreateStep, pgInsertStep, pgSelectStep,
      pgInspectStep, pgCleanup, run_command_eq, hb1, hb2, e6, e7, e8, e9, e10, e11,
      h0, h3, hc, hcr, hins, hsel, h10, List.mem_append]
  · intro h11
    simp [test_postgres_chainguard, pgConnStep, pgCreateStep, pgInsertStep, pgSelectStep,
      pgInspectStep, pgCleanup, run_command_eq, hb1, hb2, e6, e7, e8, e9, e10, e11,
      h0, h3, hc, hcr, hins, hsel, h11, List.mem_append]

/-- Image-check failure: the run reports failure and stops after the
very first command. -/
theorem pg_fail_images (env : Env) (parse : PgParse) (h : (env 0).returncode ≠ 0) :
    (test_postgres_chainguard env parse).2 = false ∧
    runCmds (test_postgres_chainguard env parse).1 = [pgImagesCmd] := by
  simp [test_postgres_chainguard, run_command_eq, h]

/-- Launch failure: the run reports failure right after the launch
command; no probe, psql step or cleanup command is issued. -/
theorem pg_fail_start (env : Env) (parse : PgParse) (h0 : (env 0).returncode = 0)
    (h : (env 3).returncode ≠ 0) :
    (test_postgres_chainguard env parse).2 = false ∧
    runCmds (test_postgres_chainguard env parse).1 =
      [pgImagesCmd, pgStopCmd, pgDeleteCmd, pgStartCmd] := by
  simp [test_postgres_chainguard, run_command_eq, h0, h]

/-- Readiness timeout: all 30 probes fail, the timeout is reported, the
run reports failure, and no further command - in particular no stop or
delete after the failure - is issued. -/
theorem pg_fail_ready (env : Env) (parse : PgParse) (h0 : (env 0).returncode = 0)
    (h3 : (env 3).returncode = 0)
    (hfa : ∀ i, i < 30 → (env (4 + i)).returncode ≠ 0) :
    (test_postgres_chainguard env parse).2 = false ∧
    runCmds (test_postgres_chainguard env parse).1 =
      [pgImagesCmd, pgStopCmd, pgDeleteCmd, pgStartCmd] ++ List.replicate 30 pgProbeCmd ∧
    Event.print "❌ PostgreSQL failed to start within expected time" ∈
      (test_postgres_chainguard env parse).1 := by
  obtain ⟨hr, hs, hm, hp⟩ := pgPoll_fail env 30 4 hfa
  have hb2 : (pgPoll env 4 30).2.2 = false := by rw [hp]
  refine ⟨?_, ?_, ?_⟩
  · simp [test_postgres_chainguard, run_command_eq, h0, h3, hb2]
  · simp [test_postgres_chainguard, run_command_eq, h0, h3, hb2, hr]
  · simp [test_postgres_chainguard, run_command_eq, h0, h3, hb2, hm]

/-- Connectivity failure (first probe success at attempt `k + 1`): the
run reports failure right after the connectivity command. -/
theorem pg_fail_conn (env : Env) (parse : PgParse) (k : Nat) (hk : k < 30)
    (h0 : (env 0).returncode = 0) (h3 : (env 3).returncode = 0)
    (hf : ∀ i, i < k → (env (4 + i)).returncode ≠ 0)
    (hs : (env (4 + k)).returncode = 0)
    (hc : (env (5 + k)).returncode ≠ 0) :
    (test_postgres_chainguard env parse).2 = false ∧
    runCmds (test_postgres_chainguard env parse).1 =
      [pgImagesCmd, pgStopCmd, pgDeleteCmd, pgStartCmd] ++
        List.replicate (k + 1) pgProbeCmd ++ [pgVersionQueryCmd] := by
  obtain ⟨hr, hsl, hp⟩ := pgPoll_succ env k 30 4 hk hf hs
  have hb2 : (pgPoll env 4 30).2.2 = true := by rw [hp]
  have hb1 : (pgPoll env 4 30).2.1 = 5 + k := by rw [hp]; omega
  constructor
  · simp [test_postgres_chainguard, pgConnStep, run_command_eq, h0, h3, hb1, hb2, hc]
  · simp [test_postgres_chainguard, pgConnStep, run_command_eq, h0, h3, hb1, hb2, hc, hr]

/-- Create-table failure: the run reports failure right after the
create-table command. -/
theorem pg_fail_create (env : Env) (parse : PgParse) (k : Nat) (hk : k < 30)
    (h0 : (env 0).returncode = 0) (h3 : (env 3).returncode = 0)
    (hf : ∀ i, i < k → (env (4 + i)).returncode ≠ 0)
    (hs : (env (4 + k)).returncode = 0)
    (hc : (env (5 + k)).returncode = 0)
    (hcr : (env (6 + k)).returncode ≠ 0) :
    (test_postgres_chainguard env parse).2 = false ∧
    runCmds (test_postgres_chainguard env parse).1 =
      [pgImagesCmd, pgStopCmd, pgDeleteCmd, pgStartCmd] ++
        List.replicate (k + 1) pgProbeCmd ++ [pgVersionQueryCmd, pgCreateTableCmd] := by
  obtain ⟨hr, hsl, hp⟩ := pgPoll_succ env k 30 4 hk hf hs
  have hb2 : (pgPoll env 4 30).2.2 = true := by rw [hp]
  have hb1 : (pgPoll env 4 30).2.1 = 5 + k := by rw [hp]; omega
  have e6 : 5 + k + 1 = 6 + k := by omega
  constructor
  · simp [test_postgres_chainguard, pgConnStep, pgCreateStep, run_command_eq,
      h0, h3, hb1, hb2, hc, e6, hcr]
  · simp [test_postgres_chainguard, pgConnStep, pgCreateStep, run_command_eq,
      h0, h3, hb1, hb2, hc, e6, hcr, hr]

/-- Insert failure: the run reports failure right after the insert
command. -/
theorem pg_fail_insert (env : Env) (parse : PgParse) (k : Nat) (hk : k < 30)
    (h0 : (env 0).returncode = 0) (h3 : (env 3).returncode = 0)
    (hf : ∀ i, i < k → (env (4 + i)).returncode ≠ 0)
    (hs : (env (4 + k)).returncode = 0)
    (hc : (env (5 + k)).returncode = 0)
    (hcr : (env (6 + k)).returncode = 0)
    (hins : (env (7 + k)).returncode ≠ 0) :
    (test_postgres_chainguard env parse).2 = false ∧
    runCmds (test_postgres_chainguard env parse).1 =
      [pgImagesCmd, pgStopCmd, pgDeleteCmd, pgStartCmd] ++
        List.replicate (k + 1) pgProbeCmd ++
        [pgVersionQueryCmd, pgCreateTableCmd, pgInsertCmd] := by
  obtain ⟨hr, hsl, hp⟩ := pgPoll_succ env k 30 4 hk hf hs
  have hb2 : (pgPoll env 4 30).2.2 = true := by rw [hp]
  have hb1 : (pgPoll env 4 30).2.1 = 5 + k := by rw [hp]; omega
  have e6 : 5 + k + 1 = 6 + k := by omega
  have e7 : 6 + k + 1 = 7 + k := by omega
  constructor
  · simp [test_postgres_chainguard, pgConnStep, pgCreateStep, pgInsertStep, run_command_eq,
      h0, h3, hb1, hb2, hc, e6, hcr, e7, hins]
  · simp [test_postgres_chainguard, pgConnStep, pgCreateStep, pgInsertStep, run_command_eq,
      h0, h3, hb1, hb2, hc, e6, hcr, e7, hins, hr]

/-- Select failure: the run reports failure right after the select
command; neither the inspect nor any cleanup command is issued. -/
theorem pg_fail_select (env : Env) (parse : PgParse) (k : Nat) (hk : k < 30)
    (h0 : (env 0).returncode = 0) (h3 : (env 3).returncode = 0)
    (hf : ∀ i, i < k → (env (4 + i)).returncode ≠ 0)
    (hs : (env (4 + k)).returncode = 0)
    (hc : (env (5 + k)).returncode = 0)
    (hcr : (env (6 + k)).returncode = 0)
    (hins : (env (7 + k)).returncode = 0)
    (hsel : (env (8 + k)).returncode ≠ 0) :
    (test_postgres_chainguard env parse).2 = false ∧
    runCmds (test_postgres_chainguard env parse).1 =
      [pgImagesCmd, pgStopCmd, pgDeleteCmd, pgStartCmd] ++
        List.replicate (k + 1) pgProbeCmd ++
        [pgVersionQueryCmd, pgCreateTableCmd, pgInsertCmd, pgSelectCmd] := by
  obtain ⟨hr, hsl, hp⟩ := pgPoll_succ env k 30 4 hk hf hs
  have hb2 : (pgPoll env 4 30).2.2 = true := by rw [hp]
  have hb1 : (pgPoll env 4 30).2.1 = 5 + k := by rw [hp]; omega
  have e6 : 5 + k + 1 = 6 + k := by omega
  have e7 : 6 + k + 1 = 7 + k := by omega
  have e8 : 7 + k + 1 = 8 + k := by omega
  constructor
  · simp [test_postgres_chainguard, pgConnStep, pgCreateStep, pgInsertStep, pgSelectStep,
      run_command_eq, h0, h3, hb1, hb2, hc, e6, hcr, e7, hins, e8, hsel]
  · simp [test_postgres_chainguard, pgConnStep, pgCreateStep, pgInsertStep, pgSelectStep,
      run_command_eq, h0, h3, hb1, hb2, hc, e6, hcr, e7, hins, e8, hsel, hr]

/-- Rust harness, image-check failure: the run reports failure after the
first command, and the finally-clause cleanup still runs. -/
theorem rust_fail_images (env : Env) (mk : MkFiles) (fso : FsOracle) (cwd : String)
    (fs0 : FS) (h : (env 0).returncode ≠ 0) :
    (test_rust_chainguard env mk fso cwd fs0).2.2 = false ∧
    runCmds (test_rust_chainguard env mk fso cwd fs0).1 = [rustImagesCmd] := by
  constructor <;>
    simp [test_rust_chainguard, rustBody, run_command_eq, h]

/-- Rust harness, version-check failure: the run reports failure right
after the version command; no later step command is issued. -/
theorem rust_fail_version (env : Env) (mk : MkFiles) (fso : FsOracle) (cwd : String)
    (fs0 : FS) (h0 : (env 0).returncode = 0) (f0 : fso 0 = none)
    (h : (env 1).returncode ≠ 0) :
    (test_rust_chainguard env mk fso cwd fs0).2.2 = false ∧
    runCmds (test_rust_chainguard env mk fso cwd fs0).1 = [rustImagesCmd, rustVersionCmd] := by
  constructor <;>
    simp [test_rust_chainguard, rustBody, run_command_eq, h0, f0, h]

/-- Rust harness, compilation failure: the run reports failure right
after the compile command. -/
theorem rust_fail_compile (env : Env) (mk : MkFiles) (fso : FsOracle) (cwd : String)
    (fs0 : FS) (h0 : (env 0).returncode = 0) (f0 : fso 0 = none)
    (h1 : (env 1).returncode = 0) (h : (env 2).returncode ≠ 0) :
    (test_rust_chainguard env mk fso cwd fs0).2.2 = false ∧
    runCmds (test_rust_chainguard env mk fso cwd fs0).1 =
      [rustImagesCmd, rustVersionCmd, rustCompileCmd cwd] := by
  constructor <;>
    simp [test_rust_chainguard, rustBody, run_command_eq, h0, f0, h1, h]

/-- Rust harness, run-binary failure: the run reports failure right
after the execution command. -/
theorem rust_fail_runbin (env : Env) (mk : MkFiles) (fso : FsOracle) (cwd : String)
    (fs0 : FS) (h0 : (env 0).returncode = 0) (f0 : fso 0 = none)
    (h1 : (env 1).returncode = 0) (h2 : (env 2).returncode = 0)
    (h : (env 3).returncode ≠ 0) :
    (test_rust_chainguard env mk fso cwd fs0).2.2 = false ∧
    runCmds (test_rust_chainguard env mk fso cwd fs0).1 =
      [rustImagesCmd, rustVersionCmd, rustCompileCmd cwd, rustRunBinCmd cwd] := by
  constructor <;>
    simp [test_rust_chainguard, rustBody, run_command_eq, h0, f0, h1, h2, h]

/-- Rust harness: once steps 1-5 have succeeded and no file operation
raises, the run returns True whatever the outcomes of the cargo check,
the optimized compile/run and the info steps; a failed cargo check is
reported with the warning line; and the optimized-compile and uname
commands of the later steps are still issued. -/
theorem rust_reaches_tail (env : Env) (mk : MkFiles) (fso : FsOracle) (cwd : String)
    (fs0 : FS) (h0 : (env 0).returncode = 0) (f0 : fso 0 = none)
    (h1 : (env 1).returncode = 0) (h2 : (env 2).returncode = 0)
    (h3 : (env 3).returncode = 0)
    (f1 : fso 1 = none) (f2 : fso 2 = none) (f3 : fso 3 = none) :
    (test_rust_chainguard env mk fso cwd fs0).2.2 = true ∧
    ((env 4).returncode ≠ 0 →
      Event.print "⚠️  Cargo not available (expected for minimal Rust image)" ∈
        (test_rust_chainguard env mk fso cwd fs0).1) ∧
    Event.run (rustOptCompileCmd cwd) ∈ (test_rust_chainguard env mk fso cwd fs0).1 ∧
    Event.run rustUnameCmd ∈ (test_rust_chainguard env mk fso cwd fs0).1 := by
  by_cases h5 : (env 5).returncode = 0
  · refine ⟨?_, ?_, ?_, ?_⟩
    · simp [test_rust_chainguard, rustBody, rustOptStep, rustTail, run_command_eq,
        h0, f0, h1, h2, h3, f1, f2, f3, h5]
    · intro h4
      simp [test_rust_chainguard, rustBody, rustOptStep, rustTail, run_command_eq,
        h0, f0, h1, h2, h3, f1, f2, f3, h5, h4]
    · simp [test_rust_chainguard, rustBody, rustOptStep, rustTail, run_command_eq,
        h0, f0, h1, h2, h3, f1, f2, f3, h5]
    · simp [test_rust_chainguard, rustBody, rustOptStep, rustTail, run_command_eq,
        h0, f0, h1, h2, h3, f1, f2, f3, h5]
  · refine ⟨?_, ?_, ?_, ?_⟩
    · simp [test_rust_chainguard, rustBody, rustOptStep, rustTail, run_command_eq,
        h0, f0, h1, h2, h3, f1, f2, f3, h5]
    · intro h4
      simp [test_rust_chainguard, rustBody, rustOptStep, rustTail, run_command_eq,
        h0, f0, h1, h2, h3, f1, f2, f3, h5, h4]
    · simp [test_rust_chainguard, rustBody, rustOptStep, rustTail, run_command_eq,
        h0, f0, h1, h2, h3, f1, f2, f3, h5]
    · simp [test_rust_chainguard, rustBody, rustOptStep, rustTail, run_command_eq,
        h0, f0, h1, h2, h3, f1, f2, f3, h5]

/-- Membership is preserved backwards through one conditional removal of
`cleanup_files`. -/
theorem mem_of_mem_removeStep {a : FS} {f x : String}
    (h : x ∈ (if f ∈ a then fsRemove a f else a)) : x ∈ a := by
  by_cases hf : f ∈ a
  · rw [if_pos hf] at h
    exact (List.mem_filter.mp h).1
  · rwa [if_neg hf] at h

/-- After the conditional removal of `f`, the path `f` is absent. -/
theorem not_mem_removeStep_self (a : FS) (f : String) :
    f ∉ (if f ∈ a then fsRemove a f else a) := by
  by_cases hf : f ∈ a
  · rw [if_pos hf]
    intro h
    have := (List.mem_filter.mp h).2
    simp [bne_iff_ne] at this
  · rwa [if_neg hf]

/-- `cleanup_files` leaves the working directory free of every staged
file, produced binary, and the whole src tree, whatever state it starts
from. -/
theorem cleanup_files_clean (fs : FS) : fsClean (cleanup_files fs) = true := by
  unfold cleanup_files filesToRemove
  simp only [List.foldl_cons, List.foldl_nil]
  set a1 := (if "hello_world.rs" ∈ fs then fsRemove fs "hello_world.rs" else fs) with ha1
  set a2 := (if "Cargo.toml" ∈ a1 then fsRemove a1 "Cargo.toml" else a1) with ha2
  set a3 := (if "hello_world" ∈ a2 then fsRemove a2 "hello_world" else a2) with ha3
  set a4 := (if "hello_optimized" ∈ a3 then fsRemove a3 "hello_optimized" else a3) with ha4
  have m1 : "hello_world.rs" ∉ a4 := fun h =>
    not_mem_removeStep_self fs "hello_world.rs"
      (mem_of_mem_removeStep (mem_of_mem_removeStep (mem_of_mem_removeStep h)))
  have m2 : "Cargo.toml" ∉ a4 := fun h =>
    not_mem_removeStep_self a1 "Cargo.toml"
      (mem_of_mem_removeStep (mem_of_mem_removeStep h))
  have m3 : "hello_world" ∉ a4 := fun h =>
    not_mem_removeStep_self a2 "hello_world" (mem_of_mem_removeStep h)
  have m4 : "hello_optimized" ∉ a4 := not_mem_removeStep_self a3 "hello_optimized"
  have hnames : ∀ p, p ∈ a4 → offendingPath p = srcEntry p := by
    intro p hp
    have hq : p ∉ filesToRemove := by
      intro hmem
      simp only [filesToRemove, List.mem_cons, List.not_mem_nil, or_false] at hmem
      rcases hmem with rfl | rfl | rfl | rfl
      · exact m1 hp
      · exact m2 hp
      · exact m3 hp
      · exact m4 hp
    simp [offendingPath, hq]
  by_cases hany : a4.any srcEntry = true
  · rw [if_pos hany, fsClean, List.all_eq_true]
    intro p hp
    obtain ⟨hpa, hps⟩ := List.mem_filter.mp hp
    rw [hnames p hpa]
    simpa using hps
  · rw [if_neg hany, fsClean, List.all_eq_true]
    intro p hp
    rw [hnames p hp]
    have := (List.any_eq_true.not.mp hany)
    push_neg at this
    have hsp := this p hp
    simp [hsp]

theorem pgCleanup_res (env : Env) (i : Nat) (t : List Event) :
    (pgCleanup env i t).2 = true := by
  simp [pgCleanup, run_command_eq]

theorem pgCleanup_sleeps (env : Env) (i : Nat) (t : List Event) :
    sleepTimes (pgCleanup env i t).1 = sleepTimes t := by
  simp [pgCleanup, run_command_eq, apply_ite sleepTimes]

theorem pgCleanup_cmds (env : Env) (i : Nat) (t : List Event) :
    runCmds (pgCleanup env i t).1 = runCmds t ++ [pgStopCmd, pgDeleteCmd] := by
  simp [pgCleanup, run_command_eq, apply_ite runCmds]

theorem pgInspectStep_sleeps (env : Env) (parse : PgParse) (i : Nat) (t : List Event) :
    sleepTimes (pgInspectStep env parse i t).1 = sleepTimes t := by
  simp [pgInspectStep, run_command_eq, apply_ite sleepTimes, pgCleanup_sleeps]

theorem pgInspectStep_cmds (env : Env) (parse : PgParse) (i : Nat) (t : List Event) :
    runCmds (pgInspectStep env parse i t).1 =
      runCmds t ++ [pgInspectCmd, pgStopCmd, pgDeleteCmd] := by
  simp [pgInspectStep, run_command_eq, apply_ite runCmds, pgCleanup_cmds]

theorem pgSelectStep_sleeps (env : Env) (parse : PgParse) (i : Nat) (t : List Event) :
    sleepTimes (pgSelectStep env parse i t).1 = sleepTimes t := by
  by_cases h : (env i).returncode = 0 <;>
    simp [pgSelectStep, run_command_eq, h, pgInspectStep_sleeps]

theorem pgSelectStep_cmds (env : Env) (parse : PgParse) (i : Nat) (t : List Event) :
    ∃ l, runCmds (pgSelectStep env parse i t).1 = runCmds t ++ pgSelectCmd :: l := by
  by_cases h : (env i).returncode = 0
  · exact ⟨[pgInspectCmd, pgStopCmd, pgDeleteCmd],
      by simp [pgSelectStep, run_command_eq, h, pgInspectStep_cmds]⟩
  · exact ⟨[], by simp [pgSelectStep, run_command_eq, h]⟩

theorem pgInsertStep_sleeps (env : Env) (parse : PgParse) (i : Nat) (t : List Event) :
    sleepTimes (pgInsertStep env parse i t).1 = sleepTimes t := by
  by_cases h : (env i).returncode = 0 <;>
    simp [pgInsertStep, run_command_eq, h, pgSelectStep_sleeps]

theorem pgInsertStep_cmds (env : Env) (parse : PgParse) (i : Nat) (t : List Event) :
    ∃ l, runCmds (pgInsertStep env parse i t).1 = runCmds t ++ pgInsertCmd :: l := by
  by_cases h : (env i).returncode = 0
  · obtain ⟨l, hl⟩ := pgSelectStep_cmds env parse (i + 1)
      (t ++ [.run pgInsertCmd] ++ [.print "✅ Inserted test data"])
    refine ⟨pgSelectCmd :: l, ?_⟩
    have : runCmds (pgInsertStep env parse i t).1 =
        runCmds (t ++ [.run pgInsertCmd] ++ [.print "✅ Inserted test data"]) ++ pgSelectCmd :: l := by
      rw [← hl]
      simp [pgInsertStep, run_command_eq, h]
    simpa using this
  · exact ⟨[], by simp [pgInsertStep, run_command_eq, h]⟩

theorem pgCreateStep_sleeps (env : Env) (parse : PgParse) (i : Nat) (t : List Event) :
    sleepTimes (pgCreateStep env parse i t).1 = sleepTimes t := by
  by_cases h : (env i).returncode = 0 <;>
    simp [pgCreateStep, run_command_eq, h, pgInsertStep_sleeps]

theorem pgCreateStep_cmds (env : Env) (parse : PgParse) (i : Nat) (t : List Event) :
    ∃ l, runCmds (pgCreateStep env parse i t).1 = runCmds t ++ pgCreateTableCmd :: l := by
  by_cases h : (env i).returncode = 0
  · obtain ⟨l, hl⟩ := pgInsertStep_cmds env parse (i + 1)
      (t ++ [.print "\n5. Testing basic database operations...", .run pgCreateTableCmd] ++
        [.print "✅ Created test table"])
    refine ⟨pgInsertCmd :: l, ?_⟩
    have : runCmds (pgCreateStep env parse i t).1 =
        runCmds (t ++ [.print "\n5. Testing basic database operations...", .run pgCreateTableCmd] ++
          [.print "✅ Created test table"]) ++ pgInsertCmd :: l := by
      rw [← hl]
      simp [pgCreateStep, run_command_eq, h]
    simpa using this
  · exact ⟨[], by simp [pgCreateStep, run_command_eq, h]⟩

theorem pgConnStep_sleeps (env : Env) (parse : PgParse) (i : Nat) (t : List Event) :
    sleepTimes (pgConnStep env parse i t).1 = sleepTimes t := by
  by_cases h : (env i).returncode = 0 <;>
    simp [pgConnStep, run_command_eq, h, pgCreateStep_sleeps]

theorem pgConnStep_cmds (env : Env) (parse : PgParse) (i : Nat) (t : List Event) :
    ∃ l, runCmds (pgConnStep env parse i t).1 = runCmds t ++ pgVersionQueryCmd :: l := by
  by_cases h : (env i).returncode = 0
  · obtain ⟨l, hl⟩ := pgCreateStep_cmds env parse (i + 1)
      (t ++ [.print "\n4. Testing database connectivity...", .run pgVersionQueryCmd] ++
        [.print "✅ Database connectivity test successful!",
          .print ("PostgreSQL version: " ++ (run_command (env i) true).1.trim)])
    refine ⟨pgCreateTableCmd :: l, ?_⟩
    have : runCmds (pgConnStep env parse i t).1 =
        runCmds (t ++ [.print "\n4. Testing database connectivity...", .run pgVersionQueryCmd] ++
          [.print "✅ Database connectivity test successful!",
            .print ("PostgreSQL version: " ++ (run_command (env i) true).1.trim)]) ++
          pgCreateTableCmd :: l := by
      rw [← hl]
      simp [pgConnStep, run_command_eq, h]
    simpa using this
  · exact ⟨[], by simp [pgConnStep, run_command_eq, h]⟩

/-- C10: for every command and every outcome of the external process,
`run_command` returns the whitespace-stripped (stdout, stderr,
returncode) triple, identical whether called with check=True or
check=False; the `CalledProcessError` raised inside never escapes, both
branches of the handler producing the same triple. -/
theorem C10_run_command_total (r : ProcResult) (c : Bool) :
    run_command r c = (r.stdout.trim, r.stderr.trim, r.returncode) ∧
    run_command r true = run_command r false := by
  refine ⟨run_command_eq r c, ?_⟩
  rw [run_command_eq, run_command_eq]

/-- C4: for both harnesses the process exit code is 0 exactly when the
harness's final boolean result is true and 1 exactly when it is false,
and no other exit code is produced. -/
theorem C4_exit_codes (env : Env) (parse : PgParse) (mk : MkFiles) (fso : FsOracle)
    (cwd : String) (fs0 : FS) :
    ((pg_main env parse = 0 ↔ (test_postgres_chainguard env parse).2 = true) ∧
     (pg_main env parse = 1 ↔ (test_postgres_chainguard env parse).2 = false) ∧
     (pg_main env parse = 0 ∨ pg_main env parse = 1)) ∧
    ((rust_main env mk fso cwd fs0 = 0 ↔
        (test_rust_chainguard env mk fso cwd fs0).2.2 = true) ∧
     (rust_main env mk fso cwd fs0 = 1 ↔
        (test_rust_chainguard env mk fso cwd fs0).2.2 = false) ∧
     (rust_main env mk fso cwd fs0 = 0 ∨ rust_main env mk fso cwd fs0 = 1)) := by
  constructor
  · unfold pg_main
    rcases h : (test_postgres_chainguard env parse).2 <;> simp [h]
  · unfold rust_main
    rcases h : (test_rust_chainguard env mk fso cwd fs0).2.2 <;> simp [h]

/-- C9: on every exit path of the Rust harness - success, step failure,
or a caught file-operation exception - the finally-clause cleanup leaves
the working directory free of hello_world.rs, Cargo.toml, hello_world,
hello_optimized and the whole src directory tree, for every command
environment, file-creation oracle, exception oracle and starting
directory state. -/
theorem C9_cleanup_working_dir (env : Env) (mk : MkFiles) (fso : FsOracle)
    (cwd : String) (fs0 : FS) :
    fsClean (test_rust_chainguard env mk fso cwd fs0).2.1 = true := by
  unfold test_rust_chainguard
  exact cleanup_files_clean _

/-- C3: the readiness loop as invoked by the harness issues at least 1
and at most 30 probes; if the first successful probe is attempt `j + 1`
(with j < 30) it issues exactly `j + 1` probes with a 2-unit sleep after
each of the `j` failed ones and succeeds; and if all 30 probes fail it
issues exactly 30 probes, sleeps 2 units after each, fails, and - when
the preceding steps had succeeded - the whole run reports failure. -/
theorem C3_readiness_polling (env : Env) (parse : PgParse) :
    (runCmds (pgPoll env 4 30).1).length ≤ 30 ∧
    1 ≤ (runCmds (pgPoll env 4 30).1).length ∧
    (∀ j, j < 30 → (∀ i, i < j → (env (4 + i)).returncode ≠ 0) →
      (env (4 + j)).returncode = 0 →
      runCmds (pgPoll env 4 30).1 = List.replicate (j + 1) pgProbeCmd ∧
      sleepTimes (pgPoll env 4 30).1 = List.replicate j 2 ∧
      (pgPoll env 4 30).2.2 = true) ∧
    ((∀ i, i < 30 → (env (4 + i)).returncode ≠ 0) →
      (pgPoll env 4 30).2.2 = false ∧
      runCmds (pgPoll env 4 30).1 = List.replicate 30 pgProbeCmd ∧
      sleepTimes (pgPoll env 4 30).1 = List.replicate 30 2 ∧
      ((env 0).returncode = 0 → (env 3).returncode = 0 →
        (test_postgres_chainguard env parse).2 = false)) := by
  obtain ⟨hub, hlb⟩ := pgPoll_probe_bounds env 30 4
  refine ⟨hub, hlb (by omega), ?_, ?_⟩
  · intro j hj hf hs
    obtain ⟨hr, hsl, hp⟩ := pgPoll_succ env j 30 4 hj hf hs
    exact ⟨hr, hsl, by rw [hp]⟩
  · intro hall
    obtain ⟨hr, hsl, hm, hp⟩ := pgPoll_fail env 30 4 hall
    refine ⟨by rw [hp], hr, hsl, ?_⟩
    intro h0 h3
    exact (pg_fail_ready env parse h0 h3 hall).1

/-- Witness for C3: with the first probe failing and the second
succeeding the loop issues 2 probes, sleeps once for 2 units, and
succeeds; with every probe failing it issues 30 probes, sleeps 30 times,
fails, and the whole postgres run reports failure. -/
theorem C3_readiness_polling_witness :
    (runCmds (pgPoll (envFailAt 4) 4 30).1 = List.replicate 2 pgProbeCmd ∧
     sleepTimes (pgPoll (envFailAt 4) 4 30).1 = List.replicate 1 2 ∧
     (pgPoll (envFailAt 4) 4 30).2.2 = true) ∧
    ((pgPoll (envFailFrom 4) 4 30).2.2 = false ∧
     runCmds (pgPoll (envFailFrom 4) 4 30).1 = List.replicate 30 pgProbeCmd ∧
     sleepTimes (pgPoll (envFailFrom 4) 4 30).1 = List.replicate 30 2 ∧
     (test_postgres_chainguard (envFailFrom 4) parseFailAlways).2 = false) := by
  constructor
  · exact (C3_readiness_polling (envFailAt 4) parseFailAlways).2.2.1 1 (by decide)
      (by decide) (by decide)
  · have h := (C3_readiness_polling (envFailFrom 4) parseFailAlways).2.2.2 (by decide)
    exact ⟨h.1, h.2.1, h.2.2.1, h.2.2.2 (by decide) (by decide)⟩

/-- C6: when the readiness probe succeeds on the very first attempt, no
sleep at all occurs in the run, and the connectivity command is issued
as the sixth command, immediately after the single probe. -/
theorem C6_first_attempt_fast (env : Env) (parse : PgParse)
    (h0 : (env 0).returncode = 0) (h3 : (env 3).returncode = 0)
    (h4 : (env 4).returncode = 0) :
    sleepTimes (test_postgres_chainguard env parse).1 = [] ∧
    ∃ l, runCmds (test_postgres_chainguard env parse).1 =
      [pgImagesCmd, pgStopCmd, pgDeleteCmd, pgStartCmd, pgProbeCmd, pgVersionQueryCmd] ++ l := by
  obtain ⟨hr, hsl, hp⟩ := pgPoll_succ env 0 30 4 (by omega)
    (fun i hi => absurd hi (Nat.not_lt_zero i)) (by simpa using h4)
  have hb2 : (pgPoll env 4 30).2.2 = true := by rw [hp]
  have hb1 : (pgPoll env 4 30).2.1 = 5 := by rw [hp]
  have heq : test_postgres_chainguard env parse =
      pgConnStep env parse 5
        ([.print "=== Testing Chainguard PostgreSQL Image ===",
          .print "\n1. Checking for existing Chainguard PostgreSQL image...",
          .run pgImagesCmd,
          .print "✅ Found existing Chainguard PostgreSQL image",
          .print "\n2. Starting PostgreSQL container...",
          .run pgStopCmd, .run pgDeleteCmd, .run pgStartCmd,
          .print "✅ Successfully started PostgreSQL container",
          .print ("Container ID: " ++ (env 3).stdout.trim),
          .print "\n3. Waiting for PostgreSQL to be ready..."] ++ (pgPoll env 4 30).1) := by
    simp [test_postgres_chainguard, run_command_eq, h0, h3, hb1, hb2]
  constructor
  · rw [heq, pgConnStep_sleeps]
    simp [hsl]
  · obtain ⟨l, hl⟩ := pgConnStep_cmds env parse 5
      ([.print "=== Testing Chainguard PostgreSQL Image ===",
        .print "\n1. Checking for existing Chainguard PostgreSQL image...",
        .run pgImagesCmd,
        .print "✅ Found existing Chainguard PostgreSQL image",
        .print "\n2. Starting PostgreSQL container...",
        .run pgStopCmd, .run pgDeleteCmd, .run pgStartCmd,
        .print "✅ Successfully started PostgreSQL container",
        .print ("Container ID: " ++ (env 3).stdout.trim),
        .print "\n3. Waiting for PostgreSQL to be ready..."] ++ (pgPoll env 4 30).1)
    refine ⟨l, ?_⟩
    rw [heq, hl]
    simp [hr]

/-- Witness for C6: with every command succeeding, the postgres run
sleeps zero times and issues the connectivity command directly after the
first (successful) probe. -/
theorem C6_first_attempt_fast_witness :
    sleepTimes (test_postgres_chainguard envAllOk parseFailAlways).1 = [] ∧
    ∃ l, runCmds (test_postgres_chainguard envAllOk parseFailAlways).1 =
      [pgImagesCmd, pgStopCmd, pgDeleteCmd, pgStartCmd, pgProbeCmd, pgVersionQueryCmd] ++ l :=
  C6_first_attempt_fast envAllOk parseFailAlways (by decide) (by decide) (by decide)

/-- C5: when the best-effort cargo version check (step 6 of the Rust
harness) returns a nonzero exit code while the mandatory steps 1-5 and
the Python file operations succeed, the warning line is printed, the run
continues to the later steps (the optimized compile command is still
issued), and the overall result is still True, so the failed cargo check
alone never affects the outcome. -/
theorem C5_cargo_warning (env : Env) (mk : MkFiles) (fso : FsOracle) (cwd : String)
    (fs0 : FS) (h0 : (env 0).returncode = 0) (f0 : fso 0 = none)
    (h1 : (env 1).returncode = 0) (h2 : (env 2).returncode = 0)
    (h3 : (env 3).returncode = 0)
    (f1 : fso 1 = none) (f2 : fso 2 = none) (f3 : fso 3 = none)
    (h4 : (env 4).returncode ≠ 0) :
    Event.print "⚠️  Cargo not available (expected for minimal Rust image)" ∈
      (test_rust_chainguard env mk fso cwd fs0).1 ∧
    Event.run (rustOptCompileCmd cwd) ∈ (test_rust_chainguard env mk fso cwd fs0).1 ∧
    (test_rust_chainguard env mk fso cwd fs0).2.2 = true := by
  obtain ⟨a, b, c, d⟩ := rust_reaches_tail env mk fso cwd fs0 h0 f0 h1 h2 h3 f1 f2 f3
  exact ⟨b h4, c, a⟩

/-- Witness for C5: a run whose only failing invocation is the cargo
check prints the warning, still issues the optimized compile, and
returns True. -/
theorem C5_cargo_warning_witness :
    Event.print "⚠️  Cargo not available (expected for minimal Rust image)" ∈
      (test_rust_chainguard (envFailAt 4) mkNone fsoNone "/w" []).1 ∧
    Event.run (rustOptCompileCmd "/w") ∈
      (test_rust_chainguard (envFailAt 4) mkNone fsoNone "/w" []).1 ∧
    (test_rust_chainguard (envFailAt 4) mkNone fsoNone "/w" []).2.2 = true :=
  C5_cargo_warning (envFailAt 4) mkNone fsoNone "/w" [] (by decide) rfl (by decide)
    (by decide) (by decide) rfl rfl rfl (by decide)

/-- C7: when the inspect command succeeds but its JSON output is
malformed, the decode error is caught locally (the fallback line is
printed), the run is not aborted (the result is still True), and the
cleanup stop/delete commands are still issued afterwards. -/
theorem C7_malformed_json (env : Env) (parse : PgParse) (k : Nat) (hk : k < 30)
    (h0 : (env 0).returncode = 0) (h3 : (env 3).returncode = 0)
    (hf : ∀ i, i < k → (env (4 + i)).returncode ≠ 0)
    (hs : (env (4 + k)).returncode = 0)
    (hc : (env (5 + k)).returncode = 0)
    (hcr : (env (6 + k)).returncode = 0)
    (hins : (env (7 + k)).returncode = 0)
    (hsel : (env (8 + k)).returncode = 0)
    (h9 : (env (9 + k)).returncode = 0)
    (hparse : parse (env (9 + k)).stdout.trim = .error ()) :
    Event.print "Could not parse container information" ∈
      (test_postgres_chainguard env parse).1 ∧
    (test_postgres_chainguard env parse).2 = true ∧
    runCmds (test_postgres_chainguard env parse).1 =
      [pgImagesCmd, pgStopCmd, pgDeleteCmd, pgStartCmd] ++
        List.replicate (k + 1) pgProbeCmd ++
        [pgVersionQueryCmd, pgCreateTableCmd, pgInsertCmd, pgSelectCmd, pgInspectCmd,
          pgStopCmd, pgDeleteCmd] := by
  obtain ⟨a, b, c, d, e, f⟩ := pg_success env parse k hk h0 h3 hf hs hc hcr hins hsel
  refine ⟨?_, a, b⟩
  exact d h9 (Event.print "Could not parse container information")
    (by rw [hparse]; simp [pgInspectPrints])

/-- Witness for C7: with every command succeeding and a parse that
always raises the decode error, the fallback line is printed, the run
succeeds, and the cleanup commands still close the command list. -/
theorem C7_malformed_json_witness :
    Event.print "Could not parse container information" ∈
      (test_postgres_chainguard envAllOk parseFailAlways).1 ∧
    (test_postgres_chainguard envAllOk parseFailAlways).2 = true ∧
    runCmds (test_postgres_chainguard envAllOk parseFailAlways).1 =
      [pgImagesCmd, pgStopCmd, pgDeleteCmd, pgStartCmd] ++
        List.replicate 1 pgProbeCmd ++
        [pgVersionQueryCmd, pgCreateTableCmd, pgInsertCmd, pgSelectCmd, pgInspectCmd,
          pgStopCmd, pgDeleteCmd] :=
  C7_malformed_json envAllOk parseFailAlways 0 (by decide) (by decide) (by decide)
    (by decide) (by decide) (by decide) (by decide) (by decide) (by decide) (by decide) rfl

/-- C8: during the final cleanup a failed stop is only reported - the
delete command is still issued right after it and the run still returns
True - and `run_command` (used for the pre-start stop/delete on a
possibly absent container as well as for the final cleanup) never lets
the process error escape, always returning the stripped triple. -/
theorem C8_cleanup_failure_tolerated (env : Env) (parse : PgParse) (k : Nat) (hk : k < 30)
    (h0 : (env 0).returncode = 0) (h3 : (env 3).returncode = 0)
    (hf : ∀ i, i < k → (env (4 + i)).returncode ≠ 0)
    (hs : (env (4 + k)).returncode = 0)
    (hc : (env (5 + k)).returncode = 0)
    (hcr : (env (6 + k)).returncode = 0)
    (hins : (env (7 + k)).returncode = 0)
    (hsel : (env (8 + k)).returncode = 0)
    (hstop : (env (10 + k)).returncode ≠ 0) :
    Event.print ("❌ Failed to stop container: " ++ (env (10 + k)).stderr.trim) ∈
      (test_postgres_chainguard env parse).1 ∧
    runCmds (test_postgres_chainguard env parse).1 =
      [pgImagesCmd, pgStopCmd, pgDeleteCmd, pgStartCmd] ++
        List.replicate (k + 1) pgProbeCmd ++
        [pgVersionQueryCmd, pgCreateTableCmd, pgInsertCmd, pgSelectCmd, pgInspectCmd,
          pgStopCmd, pgDeleteCmd] ∧
    (test_postgres_chainguard env parse).2 = true ∧
    (∀ r : ProcResult, ∀ c : Bool,
      run_command r c = (r.stdout.trim, r.stderr.trim, r.returncode)) := by
  obtain ⟨a, b, c, d, e, f⟩ := pg_success env parse k hk h0 h3 hf hs hc hcr hins hsel
  exact ⟨e hstop, b, a, fun r c => run_command_eq r c⟩

/-- Witness for C8: a run whose only failing invocation is the final
stop still issues the delete afterwards, reports the stop failure, and
returns True. -/
theorem C8_cleanup_failure_tolerated_witness :
    Event.print ("❌ Failed to stop container: " ++ (envFailAt 10 10).stderr.trim) ∈
      (test_postgres_chainguard (envFailAt 10) parseFailAlways).1 ∧
    runCmds (test_postgres_chainguard (envFailAt 10) parseFailAlways).1 =
      [pgImagesCmd, pgStopCmd, pgDeleteCmd, pgStartCmd] ++
        List.replicate 1 pgProbeCmd ++
        [pgVersionQueryCmd, pgCreateTableCmd, pgInsertCmd, pgSelectCmd, pgInspectCmd,
          pgStopCmd, pgDeleteCmd] ∧
    (test_postgres_chainguard (envFailAt 10) parseFailAlways).2 = true ∧
    (∀ r : ProcResult, ∀ c : Bool,
      run_command r c = (r.stdout.trim, r.stderr.trim, r.returncode)) :=
  C8_cleanup_failure_tolerated (envFailAt 10) parseFailAlways 0 (by decide) (by decide)
    (by decide) (by decide) (by decide) (by decide) (by decide) (by decide) (by decide)
    (by decide)

/-- Counterexample to C1: on the readiness-timeout exit path the
postgres harness returns False with the probe as the last issued
command - the stop and delete commands appear exactly once each, and
only from the pre-start phase that precedes the launch - so no cleanup
phase is attempted after the failure exit, contradicting the claim that
stop+delete is attempted on every exit path. -/
theorem C1_counterexample :
    (test_postgres_chainguard (envFailFrom 4) parseFailAlways).2 = false ∧
    runCmds (test_postgres_chainguard (envFailFrom 4) parseFailAlways).1 =
      [pgImagesCmd, pgStopCmd, pgDeleteCmd, pgStartCmd] ++ List.replicate 30 pgProbeCmd ∧
    (runCmds (test_postgres_chainguard (envFailFrom 4) parseFailAlways).1).count pgStopCmd = 1 ∧
    (runCmds (test_postgres_chainguard (envFailFrom 4) parseFailAlways).1).count pgDeleteCmd = 1 := by
  have h := pg_fail_ready (envFailFrom 4) parseFailAlways (by decide) (by decide) (by decide)
  refine ⟨h.1, h.2.1, ?_, ?_⟩
  · rw [h.2.1]; decide
  · rw [h.2.1]; decide

/-- C1 as amended: the final cleanup phase (stop followed directly by
delete) is attempted exactly once, but only on the exit path where all
mandatory steps succeed; there the run ends with the stop and delete
commands whatever their outcomes, the result stays True, and a failure
of either cleanup command is only reported in the trace, never raised. -/
theorem C1_cleanup_on_success (env : Env) (parse : PgParse) (k : Nat) (hk : k < 30)
    (h0 : (env 0).returncode = 0) (h3 : (env 3).returncode = 0)
    (hf : ∀ i, i < k → (env (4 + i)).returncode ≠ 0)
    (hs : (env (4 + k)).returncode = 0)
    (hc : (env (5 + k)).returncode = 0)
    (hcr : (env (6 + k)).returncode = 0)
    (hins : (env (7 + k)).returncode = 0)
    (hsel : (env (8 + k)).returncode = 0) :
    (test_postgres_chainguard env parse).2 = true ∧
    runCmds (test_postgres_chainguard env parse).1 =
      [pgImagesCmd, pgStopCmd, pgDeleteCmd, pgStartCmd] ++
        List.replicate (k + 1) pgProbeCmd ++
        [pgVersionQueryCmd, pgCreateTableCmd, pgInsertCmd, pgSelectCmd, pgInspectCmd,
          pgStopCmd, pgDeleteCmd] ∧
    (∃ l, runCmds (test_postgres_chainguard env parse).1 = l ++ [pgStopCmd, pgDeleteCmd]) ∧
    ((env (10 + k)).returncode ≠ 0 →
      Event.print ("❌ Failed to stop container: " ++ (env (10 + k)).stderr.trim) ∈
        (test_postgres_chainguard env parse).1) ∧
    ((env (11 + k)).returncode ≠ 0 →
      Event.print ("❌ Failed to delete container: " ++ (env (11 + k)).stderr.trim) ∈
        (test_postgres_chainguard env parse).1) := by
  obtain ⟨a, b, c, d, e, f⟩ := pg_success env parse k hk h0 h3 hf hs hc hcr hins hsel
  refine ⟨a, b, ?_, e, f⟩
  refine ⟨[pgImagesCmd, pgStopCmd, pgDeleteCmd, pgStartCmd] ++
    List.replicate (k + 1) pgProbeCmd ++
    [pgVersionQueryCmd, pgCreateTableCmd, pgInsertCmd, pgSelectCmd, pgInspectCmd], ?_⟩
  rw [b]
  simp

/-- Witness for the amended C1: a run whose only failing invocation is
the final delete still succeeds, ends with the stop/delete pair, and
reports the delete failure. -/
theorem C1_cleanup_on_success_witness :
    (test_postgres_chainguard (envFailAt 11) parseFailAlways).2 = true ∧
    runCmds (test_postgres_chainguard (envFailAt 11) parseFailAlways).1 =
      [pgImagesCmd, pgStopCmd, pgDeleteCmd, pgStartCmd] ++
        List.replicate 1 pgProbeCmd ++
        [pgVersionQueryCmd, pgCreateTableCmd, pgInsertCmd, pgSelectCmd, pgInspectCmd,
          pgStopCmd, pgDeleteCmd] ∧
    Event.print ("❌ Failed to delete container: " ++ (envFailAt 11 11).stderr.trim) ∈
      (test_postgres_chainguard (envFailAt 11) parseFailAlways).1 := by
  have h := C1_cleanup_on_success (envFailAt 11) parseFailAlways 0 (by decide) (by decide)
    (by decide) (by decide) (by decide) (by decide) (by decide) (by decide) (by decide)
  exact ⟨h.1, h.2.1, h.2.2.2.2 (by decide)⟩

/-- Counterexample to C2: in the Rust harness the optimized-compile step
(invocation 5) is the first step to return a nonzero exit code, yet the
run does not skip the remaining steps - the uname command of step 8 is
still issued - and the overall result is True, not failure. -/
theorem C2_counterexample :
    (envFailAt 5 5).returncode ≠ 0 ∧
    (test_rust_chainguard (envFailAt 5) mkNone fsoNone "/w" []).2.2 = true ∧
    Event.run rustUnameCmd ∈ (test_rust_chainguard (envFailAt 5) mkNone fsoNone "/w" []).1 := by
  have h := rust_reaches_tail (envFailAt 5) mkNone fsoNone "/w" [] (by decide) rfl
    (by decide) (by decide) (by decide) rfl rfl rfl
  exact ⟨by decide, h.1, h.2.2.2⟩

/-- C2 as amended: the first failing mandatory step - postgres image
check, launch, readiness, connectivity, create, insert, select; Rust
image check, version check, compile, binary run - makes the harness skip
every remaining non-cleanup step (the issued commands stop at the
failing one) and report overall failure, while a failure of a
best-effort later step (such as the Rust optimized compile) does not
abort the run or change its result. -/
theorem C2_failfast_mandatory (envP envR : Env) (parse : PgParse) (mk : MkFiles)
    (fso : FsOracle) (cwd : String) (fs0 : FS) :
    ((envP 0).returncode ≠ 0 →
      (test_postgres_chainguard envP parse).2 = false ∧
      runCmds (test_postgres_chainguard envP parse).1 = [pgImagesCmd]) ∧
    ((envP 0).returncode = 0 → (envP 3).returncode ≠ 0 →
      (test_postgres_chainguard envP parse).2 = false ∧
      runCmds (test_postgres_chainguard envP parse).1 =
        [pgImagesCmd, pgStopCmd, pgDeleteCmd, pgStartCmd]) ∧
    ((envP 0).returncode = 0 → (envP 3).returncode = 0 →
      (∀ i, i < 30 → (envP (4 + i)).returncode ≠ 0) →
      (test_postgres_chainguard envP parse).2 = false ∧
      runCmds (test_postgres_chainguard envP parse).1 =
        [pgImagesCmd, pgStopCmd, pgDeleteCmd, pgStartCmd] ++
          List.replicate 30 pgProbeCmd) ∧
    (∀ k, k < 30 → (envP 0).returncode = 0 → (envP 3).returncode = 0 →
      (∀ i, i < k → (envP (4 + i)).returncode ≠ 0) → (envP (4 + k)).returncode = 0 →
      (envP (5 + k)).returncode ≠ 0 →
      (test_postgres_chainguard envP parse).2 = false ∧
      runCmds (test_postgres_chainguard envP parse).1 =
        [pgImagesCmd, pgStopCmd, pgDeleteCmd, pgStartCmd] ++
          List.replicate (k + 1) pgProbeCmd ++ [pgVersionQueryCmd]) ∧
    (∀ k, k < 30 → (envP 0).returncode = 0 → (envP 3).returncode = 0 →
      (∀ i, i < k → (envP (4 + i)).returncode ≠ 0) → (envP (4 + k)).returncode = 0 →
      (envP (5 + k)).returncode = 0 → (envP (6 + k)).returncode ≠ 0 →
      (test_postgres_chainguard envP parse).2 = false ∧
      runCmds (test_postgres_chainguard envP parse).1 =
        [pgImagesCmd, pgStopCmd, pgDeleteCmd, pgStartCmd] ++
          List.replicate (k + 1) pgProbeCmd ++ [pgVersionQueryCmd, pgCreateTableCmd]) ∧
    (∀ k, k < 30 → (envP 0).returncode = 0 → (envP 3).returncode = 0 →
      (∀ i, i < k → (envP (4 + i)).returncode ≠ 0) → (envP (4 + k)).returncode = 0 →
      (envP (5 + k)).returncode = 0 → (envP (6 + k)).returncode = 0 →
      (envP (7 + k)).returncode ≠ 0 →
      (test_postgres_chainguard envP parse).2 = false ∧
      runCmds (test_postgres_chainguard envP parse).1 =
        [pgImagesCmd, pgStopCmd, pgDeleteCmd, pgStartCmd] ++
          List.replicate (k + 1) pgProbeCmd ++
          [pgVersionQueryCmd, pgCreateTableCmd, pgInsertCmd]) ∧
    (∀ k, k < 30 → (envP 0).returncode = 0 → (envP 3).returncode = 0 →
      (∀ i, i < k → (envP (4 + i)).returncode ≠ 0) → (envP (4 + k)).returncode = 0 →
      (envP (5 + k)).returncode = 0 → (envP (6 + k)).returncode = 0 →
      (envP (7 + k)).returncode = 0 → (envP (8 + k)).returncode ≠ 0 →
      (test_postgres_chainguard envP parse).2 = false ∧
      runCmds (test_postgres_chainguard envP parse).1 =
        [pgImagesCmd, pgStopCmd, pgDeleteCmd, pgStartCmd] ++
          List.replicate (k + 1) pgProbeCmd ++
          [pgVersionQueryCmd, pgCreateTableCmd, pgInsertCmd, pgSelectCmd]) ∧
    ((envR 0).returncode ≠ 0 →
      (test_rust_chainguard envR mk fso cwd fs0).2.2 = false ∧
      runCmds (test_rust_chainguard envR mk fso cwd fs0).1 = [rustImagesCmd]) ∧
    ((envR 0).returncode = 0 → fso 0 = none → (envR 1).returncode ≠ 0 →
      (test_rust_chainguard envR mk fso cwd fs0).2.2 = false ∧
      runCmds (test_rust_chainguard envR mk fso cwd fs0).1 =
        [rustImagesCmd, rustVersionCmd]) ∧
    ((envR 0).returncode = 0 → fso 0 = none → (envR 1).returncode = 0 →
      (envR 2).returncode ≠ 0 →
      (test_rust_chainguard envR mk fso cwd fs0).2.2 = false ∧
      runCmds (test_rust_chainguard envR mk fso cwd fs0).1 =
        [rustImagesCmd, rustVersionCmd, rustCompileCmd cwd]) ∧
    ((envR 0).returncode = 0 → fso 0 = none → (envR 1).returncode = 0 →
      (envR 2).returncode = 0 → (envR 3).returncode ≠ 0 →
      (test_rust_chainguard envR mk fso cwd fs0).2.2 = false ∧
      runCmds (test_rust_chainguard envR mk fso cwd fs0).1 =
        [rustImagesCmd, rustVersionCmd, rustCompileCmd cwd, rustRunBinCmd cwd]) ∧
    ((envR 0).returncode = 0 → fso 0 = none → (envR 1).returncode = 0 →
      (envR 2).returncode = 0 → (envR 3).returncode = 0 →
      fso 1 = none → fso 2 = none → fso 3 = none →
      (test_rust_chainguard envR mk fso cwd fs0).2.2 = true ∧
      Event.run (rustOptCompileCmd cwd) ∈ (test_rust_chainguard envR mk fso cwd fs0).1 ∧
      Event.run rustUnameCmd ∈ (test_rust_chainguard envR mk fso cwd fs0).1) := by
  refine ⟨?_, ?_, ?_, ?_, ?_, ?_, ?_, ?_, ?_, ?_, ?_, ?_⟩
  · intro h
    exact pg_fail_images envP parse h
  · intro h0 h
    exact pg_fail_start envP parse h0 h
  · intro h0 h3 hall
    have h := pg_fail_ready envP parse h0 h3 hall
    exact ⟨h.1, h.2.1⟩
  · intro k hk h0 h3 hf hs hc
    exact pg_fail_conn envP parse k hk h0 h3 hf hs hc
  · intro k hk h0 h3 hf hs hc hcr
    exact pg_fail_create envP parse k hk h0 h3 hf hs hc hcr
  · intro k hk h0 h3 hf hs hc hcr hins
    exact pg_fail_insert envP parse k hk h0 h3 hf hs hc hcr hins
  · intro k hk h0 h3 hf hs hc hcr hins hsel
    exact pg_fail_select envP parse k hk h0 h3 hf hs hc hcr hins hsel
  · intro h
    exact rust_fail_images envR mk fso cwd fs0 h
  · intro h0 f0 h
    exact rust_fail_version envR mk fso cwd fs0 h0 f0 h
  · intro h0 f0 h1 h
    exact rust_fail_compile envR mk fso cwd fs0 h0 f0 h1 h
  · intro h0 f0 h1 h2 h
    exact rust_fail_runbin envR mk fso cwd fs0 h0 f0 h1 h2 h
  · intro h0 f0 h1 h2 h3 f1 f2 f3
    have h := rust_reaches_tail envR mk fso cwd fs0 h0 f0 h1 h2 h3 f1 f2 f3
    exact ⟨h.1, h.2.2.1, h.2.2.2⟩

/-- Witness for the amended C2: each mandatory-step failure case of both
harnesses, instantiated on a concrete environment failing from that step
on, stops the command sequence at the failing step and reports failure,
while a fully successful mandatory prefix reaches the later best-effort
steps and returns True. -/
theorem C2_failfast_mandatory_witness :
    ((test_postgres_chainguard (envFailFrom 0) parseFailAlways).2 = false ∧
      runCmds (test_postgres_chainguard (envFailFrom 0) parseFailAlways).1 = [pgImagesCmd]) ∧
    ((test_postgres_chainguard (envFailFrom 3) parseFailAlways).2 = false ∧
      runCmds (test_postgres_chainguard (envFailFrom 3) parseFailAlways).1 =
        [pgImagesCmd, pgStopCmd, pgDeleteCmd, pgStartCmd]) ∧
    ((test_postgres_chainguard (envFailFrom 4) parseFailAlways).2 = false ∧
      runCmds (test_postgres_chainguard (envFailFrom 4) parseFailAlways).1 =
        [pgImagesCmd, pgStopCmd, pgDeleteCmd, pgStartCmd] ++
          List.replicate 30 pgProbeCmd) ∧
    ((test_postgres_chainguard (envFailFrom 5) parseFailAlways).2 = false ∧
      runCmds (test_postgres_chainguard (envFailFrom 5) parseFailAlways).1 =
        [pgImagesCmd, pgStopCmd, pgDeleteCmd, pgStartCmd] ++
          List.replicate 1 pgProbeCmd ++ [pgVersionQueryCmd]) ∧
    ((test_postgres_chainguard (envFailFrom 6) parseFailAlways).2 = false ∧
      runCmds (test_postgres_chainguard (envFailFrom 6) parseFailAlways).1 =
        [pgImagesCmd, pgStopCmd, pgDeleteCmd, pgStartCmd] ++
          List.replicate 1 pgProbeCmd ++ [pgVersionQueryCmd, pgCreateTableCmd]) ∧
    ((test_postgres_chainguard (envFailFrom 7) parseFailAlways).2 = false ∧
      runCmds (test_postgres_chainguard (envFailFrom 7) parseFailAlways).1 =
        [pgImagesCmd, pgStopCmd, pgDeleteCmd, pgStartCmd] ++
          List.replicate 1 pgProbeCmd ++
          [pgVersionQueryCmd, pgCreateTableCmd, pgInsertCmd]) ∧
    ((test_postgres_chainguard (envFailFrom 8) parseFailAlways).2 = false ∧
      runCmds (test_postgres_chainguard (envFailFrom 8) parseFailAlways).1 =
        [pgImagesCmd, pgStopCmd, pgDeleteCmd, pgStartCmd] ++
          List.replicate 1 pgProbeCmd ++
          [pgVersionQueryCmd, pgCreateTableCmd, pgInsertCmd, pgSelectCmd]) ∧
    ((test_rust_chainguard (envFailFrom 0) mkNone fsoNone "/w" []).2.2 = false ∧
      runCmds (test_rust_chainguard (envFailFrom 0) mkNone fsoNone "/w" []).1 =
        [rustImagesCmd]) ∧
    ((test_rust_chainguard (envFailFrom 1) mkNone fsoNone "/w" []).2.2 = false ∧
      runCmds (test_rust_chainguard (envFailFrom 1) mkNone fsoNone "/w" []).1 =
        [rustImagesCmd, rustVersionCmd]) ∧
    ((test_rust_chainguard (envFailFrom 2) mkNone fsoNone "/w" []).2.2 = false ∧
      runCmds (test_rust_chainguard (envFailFrom 2) mkNone fsoNone "/w" []).1 =
        [rustImagesCmd, rustVersionCmd, rustCompileCmd "/w"]) ∧
    ((test_rust_chainguard (envFailFrom 3) mkNone fsoNone "/w" []).2.2 = false ∧
      runCmds (test_rust_chainguard (envFailFrom 3) mkNone fsoNone "/w" []).1 =
        [rustImagesCmd, rustVersionCmd, rustCompileCmd "/w", rustRunBinCmd "/w"]) ∧
    ((test_rust_chainguard envAllOk mkNone fsoNone "/w" []).2.2 = true ∧
      Event.run (rustOptCompileCmd "/w") ∈ (test_rust_chainguard envAllOk mkNone fsoNone "/w" []).1 ∧
      Event.run rustUnameCmd ∈ (test_rust_chainguard envAllOk mkNone fsoNone "/w" []).1) := by
  obtain ⟨a1, _, _, _, _, _, _, _, _, _, _, _⟩ :=
    C2_failfast_mandatory (envFailFrom 0) envAllOk parseFailAlways mkNone fsoNone "/w" []
  obtain ⟨_, a2, _, _, _, _, _, _, _, _, _, _⟩ :=
    C2_failfast_mandatory (envFailFrom 3) envAllOk parseFailAlways mkNone fsoNone "/w" []
  obtain ⟨_, _, a3, _, _, _, _, _, _, _, _, _⟩ :=
    C2_failfast_mandatory (envFailFrom 4) envAllOk parseFailAlways mkNone fsoNone "/w" []
  obtain ⟨_, _, _, a4, _, _, _, _, _, _, _, _⟩ :=
    C2_failfast_mandatory (envFailFrom 5) envAllOk parseFailAlways mkNone fsoNone "/w" []
  obtain ⟨_, _, _, _, a5, _, _, _, _, _, _, _⟩ :=
    C2_failfast_mandatory (envFailFrom 6) envAllOk parseFailAlways mkNone fsoNone "/w" []
  obtain ⟨_, _, _, _, _, a6, _, _, _, _, _, _⟩ :=
    C2_failfast_mandatory (envFailFrom 7) envAllOk parseFailAlways mkNone fsoNone "/w" []
  obtain ⟨_, _, _, _, _, _, a7, _, _, _, _, _⟩ :=
    C2_failfast_mandatory (envFailFrom 8) envAllOk parseFailAlways mkNone fsoNone "/w" []
  obtain ⟨_, _, _, _, _, _, _, b1, _, _, _, _⟩ :=
    C2_failfast_mandatory envAllOk (envFailFrom 0) parseFailAlways mkNone fsoNone "/w" []
  obtain ⟨_, _, _, _, _, _, _, _, b2, _, _, _⟩ :=
    C2_failfast_mandatory envAllOk (envFailFrom 1) parseFailAlways mkNone fsoNone "/w" []
  obtain ⟨_, _, _, _, _, _, _, _, _, b3, _, _⟩ :=
    C2_failfast_mandatory envAllOk (envFailFrom 2) parseFailAlways mkNone fsoNone "/w" []
  obtain ⟨_, _, _, _, _, _, _, _, _, _, b4, _⟩ :=
    C2_failfast_mandatory envAllOk (envFailFrom 3) parseFailAlways mkNone fsoNone "/w" []
  obtain ⟨_, _, _, _, _, _, _, _, _, _, _, b5⟩ :=
    C2_failfast_mandatory envAllOk envAllOk parseFailAlways mkNone fsoNone "/w" []
  refine ⟨a1 (by decide), a2 (by decide) (by decide), a3 (by decide) (by decide) (by decide),
    a4 0 (by decide) (by decide) (by decide) (by decide) (by decide) (by decide),
    a5 0 (by decide) (by decide) (by decide) (by decide) (by decide) (by decide) (by decide),
    a6 0 (by decide) (by decide) (by decide) (by decide) (by decide) (by decide) (by decide)
      (by decide),
    a7 0 (by decide) (by decide) (by decide) (by decide) (by decide) (by decide) (by decide)
      (by decide) (by decide),
    b1 (by decide), b2 (by decide) rfl (by decide), b3 (by decide) rfl (by decide) (by decide),
    b4 (by decide) rfl (by decide) (by decide) (by decide),
    b5 (by decide) rfl (by decide) (by decide) (by decide) rfl rfl rfl⟩
